import Mathlib

/-!
Verification of the helios-proof-relayer core: a shallow embedding of the
poll/decode/deduplicate/persist/relay engine (src/main.rs, src/relayer.rs),
the SQLite-backed state store (src/db.rs) and the status endpoint
(src/api.rs), together with theorems settling the specification claims.

Timestamps are embedded as `Int` nanoseconds since the Unix epoch, which is
the instant a `chrono::DateTime<Utc>` denotes; the store serializes them to
RFC 3339 text exactly as `to_rfc3339` / `parse_from_rfc3339` do, so the text
codec is modelled explicitly below (civil-date conversion follows the
standard Gregorian era algorithm used by such libraries).
-/

namespace HeliosRelayer

/-! ## Byte and hex helpers (the `hex::encode` collaborator) -/

/-- Lowercase hexadecimal digit for a value below 16. -/
def hex_digit (n : Nat) : Char :=
  if n < 10 then Char.ofNat (48 + n) else Char.ofNat (87 + n % 16)

/-- Model of `hex::encode`: two lowercase hex digits per byte, in order. -/
def hex_encode (bytes : List Nat) : String :=
  String.mk (bytes.foldr (fun b acc => hex_digit (b / 16 % 16) :: hex_digit (b % 16) :: acc) [])

/-! ## RFC 3339 text codec (the `chrono` collaborator used by db.rs) -/

/-- Left-pad the decimal rendering of a number with zeros to a given width. -/
def pad_left_zeros (width : Nat) (n : Nat) : String :=
  let s := toString n
  if s.length < width then String.mk (List.replicate (width - s.length) '0') ++ s else s

/-- Render a year, at least four digits, with a sign for negative years. -/
def format_year (y : Int) : String :=
  if y < 0 then "-" ++ pad_left_zeros 4 (-y).toNat else pad_left_zeros 4 y.toNat

/-- Fractional-second rendering: empty when zero, else 3, 6 or 9 digits
depending on the trailing zeros of the nanosecond part (as chrono's
auto-precision formatting does). -/
def format_subsec_nanos (nanos : Nat) : String :=
  if nanos = 0 then ""
  else if nanos % 1000000 = 0 then "." ++ pad_left_zeros 3 (nanos / 1000000)
  else if nanos % 1000 = 0 then "." ++ pad_left_zeros 6 (nanos / 1000)
  else "." ++ pad_left_zeros 9 nanos

/-- Gregorian civil date from a count of days since 1970-01-01
(era-based algorithm). Returns (year, month, day). -/
def civil_from_days (z0 : Int) : Int × Nat × Nat :=
  let z := z0 + 719468
  let era := z.fdiv 146097
  let doe := (z - era * 146097).toNat
  let yoe := (doe - doe / 1460 + doe / 36524 - doe / 146096) / 365
  let doy := doe - (365 * yoe + yoe / 4 - yoe / 100)
  let mp := (5 * doy + 2) / 153
  let d := doy - (153 * mp + 2) / 5 + 1
  let m := if mp < 10 then mp + 3 else mp - 9
  let y : Int := (yoe : Int) + era * 400
  (if m ≤ 2 then y + 1 else y, m, d)

/-- Days since 1970-01-01 of a Gregorian civil date (inverse of
`civil_from_days` on valid dates). -/
def days_from_civil (y0 : Int) (m d : Nat) : Int :=
  let y := if m ≤ 2 then y0 - 1 else y0
  let era := y.fdiv 400
  let yoe := (y - era * 400).toNat
  let mp := if m ≥ 3 then m - 3 else m + 9
  let doy := (153 * mp + 2) / 5 + d - 1
  let doe := yoe * 365 + yoe / 4 - yoe / 100 + doy
  era * 146097 + (doe : Int) - 719468

/-- Model of `DateTime<Utc>::to_rfc3339` on an instant given as nanoseconds
since the epoch: "YYYY-MM-DDTHH:MM:SS[.fff]+00:00". -/
def to_rfc3339 (t : Int) : String :=
  let secs := t.fdiv 1000000000
  let nanos := (t.fmod 1000000000).toNat
  let days := secs.fdiv 86400
  let sod := (secs.fmod 86400).toNat
  let ymd := civil_from_days days
  format_year ymd.1 ++ "-" ++ pad_left_zeros 2 ymd.2.1 ++ "-" ++ pad_left_zeros 2 ymd.2.2 ++
    "T" ++ pad_left_zeros 2 (sod / 3600) ++ ":" ++ pad_left_zeros 2 (sod / 60 % 60) ++ ":" ++
    pad_left_zeros 2 (sod % 60) ++ format_subsec_nanos nanos ++ "+00:00"

/-- Decimal digit value of a character, if it is one. -/
def digit? (c : Char) : Option Nat :=
  if '0' ≤ c ∧ c ≤ '9' then some (c.toNat - 48) else none

/-- Take the longest prefix of decimal digits. -/
def take_digits : List Char → List Nat × List Char
  | [] => ([], [])
  | c :: cs =>
    match digit? c with
    | some d => let r := take_digits cs; (d :: r.1, r.2)
    | none => ([], c :: cs)

/-- Recognize the UTC offset suffix produced by the formatter. -/
def parse_utc_offset : List Char → Bool
  | ['Z'] => true
  | ['+', '0', '0', ':', '0', '0'] => true
  | _ => false

/-- Parse an optional fractional-second part followed by the UTC offset,
returning the nanosecond value. -/
def parse_frac_and_offset : List Char → Option Nat
  | '.' :: rest =>
    let r := take_digits rest
    if 1 ≤ r.1.length ∧ r.1.length ≤ 9 ∧ parse_utc_offset r.2 then
      some (r.1.foldl (fun acc d => acc * 10 + d) 0 * 10 ^ (9 - r.1.length))
    else none
  | rest => if parse_utc_offset rest then some 0 else none

/-- Model of `DateTime::parse_from_rfc3339` composed with `with_timezone(&Utc)`
on the UTC subset of RFC 3339 that the formatter emits: the resulting instant
in nanoseconds since the epoch, or `none` on malformed text. -/
def parse_rfc3339 (s : String) : Option Int :=
  match s.toList with
  | y1 :: y2 :: y3 :: y4 :: '-' :: mo1 :: mo2 :: '-' :: d1 :: d2 :: 'T' ::
      h1 :: h2 :: ':' :: mi1 :: mi2 :: ':' :: s1 :: s2 :: rest =>
    match digit? y1, digit? y2, digit? y3, digit? y4, digit? mo1, digit? mo2,
        digit? d1, digit? d2, digit? h1, digit? h2, digit? mi1, digit? mi2,
        digit? s1, digit? s2 with
    | some a, some b, some c, some d, some e, some f, some g, some h,
        some i, some j, some k, some l, some m, some n =>
      match parse_frac_and_offset rest with
      | some nanos =>
        let year : Int := ((a * 1000 + b * 100 + c * 10 + d : Nat) : Int)
        let month := e * 10 + f
        let day := g * 10 + h
        let hour := i * 10 + j
        let minute := k * 10 + l
        let second := m * 10 + n
        if 1 ≤ month ∧ month ≤ 12 ∧ 1 ≤ day ∧ day ≤ 31 ∧
            hour ≤ 23 ∧ minute ≤ 59 ∧ second ≤ 59 then
          some ((days_from_civil year month day * 86400 +
            ((hour * 3600 + minute * 60 + second : Nat) : Int)) * 1000000000 + (nanos : Int))
        else none
      | none => none
    | _, _, _, _, _, _, _, _, _, _, _, _, _, _ => none
  | _ => none

/-! ## State store (src/db.rs) -/

/-- The Rust struct `HealthCheckData` of db.rs: height, 32-byte root, and a
`DateTime<Utc>` timestamp (an instant, in nanoseconds since the epoch). -/
structure HealthCheckData where
  current_height : Nat
  current_root : List Nat
  timestamp : Int
  deriving Repr, DecidableEq

/-- The Rust struct `PreviousProof` of db.rs. -/
structure PreviousProof where
  proof_data : String
  timestamp : Int
  deriving Repr, DecidableEq

/-- One row of the `health_check` table: INTEGER PRIMARY KEY id, height,
root blob, timestamp TEXT. -/
structure HealthRow where
  id : Nat
  current_height : Nat
  current_root : List Nat
  timestamp : String
  deriving Repr, DecidableEq

/-- One row of the `previous_proof` table: INTEGER PRIMARY KEY id,
proof TEXT, timestamp TEXT. -/
structure ProofRow where
  id : Nat
  proof_data : String
  timestamp : String
  deriving Repr, DecidableEq

/-- The SQLite database of db.rs: its two tables. Every operation of
`Database` locks the one `Mutex<Connection>` for its whole body, so each
operation below is one atomic step with respect to concurrent readers. -/
structure DbState where
  health_check : List HealthRow
  previous_proof : List ProofRow
  deriving Repr, DecidableEq

/-- The freshly initialized database: both tables empty. -/
def emptyDb : DbState := { health_check := [], previous_proof := [] }

/-- SQLite rowid assignment for an insert: one more than the largest
existing id (1 on an empty table). -/
def next_row_id (ids : List Nat) : Nat := ids.foldr max 0 + 1

/-- The row `ORDER BY id DESC LIMIT 1` selects: the row of largest id. -/
def latest_by_id {α : Type} (idOf : α → Nat) : List α → Option α
  | [] => none
  | r :: rs =>
    match latest_by_id idOf rs with
    | none => some r
    | some best => if idOf best ≤ idOf r then some r else some best

/-- `Database::update_health_check`: under the lock, DELETE FROM health_check,
then INSERT the record with its timestamp rendered by `to_rfc3339`. -/
def update_health_check (db : DbState) (data : HealthCheckData) : DbState :=
  let db1 := { db with health_check := [] }
  let row : HealthRow :=
    { id := next_row_id (db1.health_check.map (fun r => r.id)),
      current_height := data.current_height,
      current_root := data.current_root,
      timestamp := to_rfc3339 data.timestamp }
  { db1 with health_check := db1.health_check ++ [row] }

/-- `Database::get_latest_health_check`: select the newest row, parse its
RFC 3339 timestamp text; a parse failure propagates as an error. -/
def get_latest_health_check (db : DbState) : Except String (Option HealthCheckData) :=
  match latest_by_id (fun r => r.id) db.health_check with
  | none => Except.ok none
  | some row =>
    match parse_rfc3339 row.timestamp with
    | some ts =>
      Except.ok (some { current_height := row.current_height,
                        current_root := row.current_root, timestamp := ts })
    | none => Except.error "timestamp"

/-- `Database::update_previous_proof`: under the lock, DELETE FROM
previous_proof, then INSERT the record. -/
def update_previous_proof (db : DbState) (proof : PreviousProof) : DbState :=
  let db1 := { db with previous_proof := [] }
  let row : ProofRow :=
    { id := next_row_id (db1.previous_proof.map (fun r => r.id)),
      proof_data := proof.proof_data,
      timestamp := to_rfc3339 proof.timestamp }
  { db1 with previous_proof := db1.previous_proof ++ [row] }

/-- `Database::get_previous_proof`: select the newest row, parse its
RFC 3339 timestamp text; a parse failure propagates as an error. -/
def get_previous_proof (db : DbState) : Except String (Option PreviousProof) :=
  match latest_by_id (fun r => r.id) db.previous_proof with
  | none => Except.ok none
  | some row =>
    match parse_rfc3339 row.timestamp with
    | some ts => Except.ok (some { proof_data := row.proof_data, timestamp := ts })
    | none => Except.error "timestamp"

/-- `Database::clear_all_tables`: DELETE FROM both tables. -/
def clear_all_tables (db : DbState) : DbState :=
  { db with health_check := [], previous_proof := [] }

/-! ## Proof codec (src/config.rs and the wrapper-circuit output decoding) -/

/-- The `MODE` enum of config.rs. -/
inductive MODE where
  | HELIOS : MODE
  | TENDERMINT : MODE
  deriving Repr, DecidableEq

/-- `LIGHT_CLIENT_MODE` of config.rs. -/
def LIGHT_CLIENT_MODE : MODE := MODE.HELIOS

/-- A fetched `SP1ProofWithPublicValues`: the raw proof bytes returned by
`.bytes()` and the public-output bytes. -/
structure RawProof where
  bytes : List Nat
  public_values : List Nat
  deriving Repr, DecidableEq

/-- Little-endian 64-bit value of eight bytes (first byte least significant). -/
def le_u64 (bytes : List Nat) : Nat :=
  bytes.foldr (fun b acc => b + 256 * acc) 0

/-- Modelled from the spec: the wrapper-circuit output types
(`helios_recursion_types::WrapperCircuitOutputs` and
`tendermint_recursion_types::WrapperCircuitOutputs`, external crates not in
src/) decoded by `borsh::from_slice` are a flat binary record holding the
pair (height : u64, root : 32-byte array), with the whole input consumed;
malformed or truncated bytes fail to decode. -/
def decode_wrapper_outputs (public_values : List Nat) : Option (Nat × List Nat) :=
  if public_values.length = 40 then
    some (le_u64 (public_values.take 8), public_values.drop 8)
  else none

/-- The per-mode public-output decoding performed at main.rs lines 160-173. -/
def decode_public_outputs (mode : MODE) (public_values : List Nat) : Option (Nat × List Nat) :=
  match mode with
  | MODE.HELIOS => decode_wrapper_outputs public_values
  | MODE.TENDERMINT => decode_wrapper_outputs public_values

/-! ## Health-check engine cycle (src/main.rs lines 121-218) -/

/-- Outcome of one iteration of the health-check loop body: either the body
reached a panic (the decode `unwrap` on malformed bytes), or it ran to the
next iteration after performing the listed sleeps (in seconds, in order). -/
inductive CycleOutcome where
  | panicked : CycleOutcome
  | completed : List Nat → CycleOutcome
  deriving Repr, DecidableEq

/-- Whether an iteration ended by sleeping and continuing the loop (rather
than by a panic that terminates the task). -/
def proceeds_to_sleep : CycleOutcome → Bool
  | CycleOutcome.panicked => false
  | CycleOutcome.completed _ => true

/-- Environment of one health-check iteration: the fetch result (`none`
models a `get_proof` error), fault-injection flags for the three database
calls of the iteration, and the two `Utc::now()` readings (snapshot
timestamp, then fingerprint timestamp), in epoch nanoseconds. -/
structure HealthCycleInput where
  fetch : Option RawProof
  get_prev_fault : Bool
  snapshot_write_fault : Bool
  fingerprint_write_fault : Bool
  now1 : Int
  now2 : Int
  deriving Repr, DecidableEq

/-- The `previous_proof` read of main.rs lines 128-135: a database error
(injected fault or stored-timestamp parse failure) is logged and treated as
`None`, otherwise the stored fingerprint text is returned. -/
def previous_proof_of (db : DbState) (fault : Bool) : Option String :=
  if fault then none
  else
    match get_previous_proof db with
    | Except.ok (some prev) => some prev.proof_data
    | Except.ok none => none
    | Except.error _ => none

/-- One iteration of the health-check loop body (main.rs lines 121-218):
fetch; on error sleep 120 and continue. Otherwise read the previous
fingerprint, hex-encode the proof bytes, and if unchanged sleep 120 and
`continue` (skipping the trailing sleep). On a changed proof, decode the
public outputs — the `unwrap` panics on failure — then write the snapshot
and the fingerprint (each write failure only logged), and fall through to
the trailing 120-second sleep. -/
def health_check_cycle (db : DbState) (inp : HealthCycleInput) : DbState × CycleOutcome :=
  match inp.fetch with
  | none => (db, CycleOutcome.completed [120])
  | some proof =>
    let previous_proof := previous_proof_of db inp.get_prev_fault
    let current_proof_hex := hex_encode proof.bytes
    if previous_proof = some current_proof_hex then
      (db, CycleOutcome.completed [120])
    else
      match decode_public_outputs LIGHT_CLIENT_MODE proof.public_values with
      | none => (db, CycleOutcome.panicked)
      | some hr =>
        let db1 := if inp.snapshot_write_fault then db
          else update_health_check db
            { current_height := hr.1, current_root := hr.2, timestamp := inp.now1 }
        let db2 := if inp.fingerprint_write_fault then db1
          else update_previous_proof db1
            { proof_data := current_proof_hex, timestamp := inp.now2 }
        (db2, CycleOutcome.completed [120])

/-- Run a sequence of health-check iterations; a panic terminates the task,
so no later iteration runs. Returns the final database state. -/
def run_health_cycles (db : DbState) : List HealthCycleInput → DbState
  | [] => db
  | inp :: rest =>
    match health_check_cycle db inp with
    | (db1, CycleOutcome.panicked) => db1
    | (db1, CycleOutcome.completed _) => run_health_cycles db1 rest

/-! ## Relay-mode engine cycle (src/main.rs lines 45-91, src/relayer.rs) -/

/-- The JSON payload built by `create_payload` (relayer.rs): hex-encoded
proof bytes, hex-encoded public values, and the verification key. -/
structure RelayPayload where
  proof : String
  public_values : String
  vk : String
  deriving Repr, DecidableEq

/-- State carried across relay-mode cycles: the in-memory `previous_proof`
variable and the database. -/
structure RelayState where
  previous_proof : Option String
  db : DbState
  deriving Repr, DecidableEq

/-- Outcome of the POST to the registry endpoint: either no HTTP response
at all (a transport failure of `client.post(...).send()`), or a response
carrying its HTTP status code together with whether reading its body text
succeeded. -/
inductive RegistryOutcome where
  | no_response : RegistryOutcome
  | response : Nat → Bool → RegistryOutcome
  deriving Repr, DecidableEq

/-- `send` of relayer.rs lines 53-65: POST the payload, log the response
status, read the body text, return Ok. The result is Err only on a
transport failure or a failed body read — `response.status()` is logged but
never checked, so an HTTP-error response from the registry still yields Ok.
Returns true exactly when the Rust function returns Ok. -/
def send (outcome : RegistryOutcome) : Bool :=
  match outcome with
  | RegistryOutcome.no_response => false
  | RegistryOutcome.response _ body_read_ok => body_read_ok

/-- The HTTP success range of `StatusCode::is_success` (which `send` never
consults; `get_proof` in relayer.rs does consult it for the GET). -/
def status_is_success (status : Nat) : Bool :=
  if 200 ≤ status ∧ status < 300 then true else false

/-- Environment of one relay-mode iteration: the `create_payload` result
(`none` models an error), the registry's reaction to the POST, a fault flag
for `update_previous_proof`, and the `Utc::now()` reading in epoch
nanoseconds. -/
structure RelayCycleInput where
  payload : Option RelayPayload
  registry : RegistryOutcome
  db_write_fault : Bool
  now : Int
  deriving Repr, DecidableEq

/-- The `should_send` comparison of main.rs lines 52-61: send when there is
no previous proof or it differs from the current one. -/
def relay_should_send (previous_proof : Option String) (current_proof : String) : Bool :=
  match previous_proof with
  | none => true
  | some prev => if prev ≠ current_proof then true else false

/-- One iteration of the relay loop body (main.rs lines 45-91): on a payload
error, just sleep 30. Otherwise compare the payload's proof text with the
in-memory previous proof; if it changed, `send` it — only when `send`
returns Ok (any HTTP response with a readable body, the status unchecked)
is the in-memory previous proof replaced and the fingerprint written to
the database (a write failure only logged); when `send` errs nothing
changes. Every path falls through to the trailing 30-second sleep. -/
def relay_cycle (st : RelayState) (inp : RelayCycleInput) : RelayState × List Nat :=
  match inp.payload with
  | none => (st, [30])
  | some payload =>
    let current_proof := payload.proof
    if relay_should_send st.previous_proof current_proof then
      if send inp.registry then
        let db1 := if inp.db_write_fault then st.db
          else update_previous_proof st.db
            { proof_data := current_proof, timestamp := inp.now }
        ({ previous_proof := some current_proof, db := db1 }, [30])
      else (st, [30])
    else (st, [30])

/-! ## Store operation sequences (for the single-row invariant) -/

/-- A write operation on the store (the read operations do not change it). -/
inductive DbOp where
  | update_health : HealthCheckData → DbOp
  | update_prev : PreviousProof → DbOp
  | clear_all : DbOp
  deriving Repr

/-- Apply one store operation. -/
def apply_op (db : DbState) : DbOp → DbState
  | DbOp.update_health d => update_health_check db d
  | DbOp.update_prev p => update_previous_proof db p
  | DbOp.clear_all => clear_all_tables db

/-- Apply a sequence of store operations in order. -/
def apply_ops (db : DbState) (ops : List DbOp) : DbState :=
  ops.foldl apply_op db

/-- How one operation changes which snapshot the store holds. -/
def health_write_step (acc : Option HealthCheckData) : DbOp → Option HealthCheckData
  | DbOp.update_health d => some d
  | DbOp.update_prev _ => acc
  | DbOp.clear_all => none

/-- How one operation changes which fingerprint the store holds. -/
def prev_write_step (acc : Option PreviousProof) : DbOp → Option PreviousProof
  | DbOp.update_health _ => acc
  | DbOp.update_prev p => some p
  | DbOp.clear_all => none

/-- The most recent snapshot written by a sequence and not erased by a later
`clear_all`. -/
def last_health_write (ops : List DbOp) : Option HealthCheckData :=
  ops.foldl health_write_step none

/-- The most recent fingerprint written by a sequence and not erased by a
later `clear_all`. -/
def last_prev_write (ops : List DbOp) : Option PreviousProof :=
  ops.foldl prev_write_step none

/-- The single row a stored snapshot occupies. -/
def health_row_of (d : HealthCheckData) : HealthRow :=
  { id := 1, current_height := d.current_height, current_root := d.current_root,
    timestamp := to_rfc3339 d.timestamp }

/-- The single row a stored fingerprint occupies. -/
def proof_row_of (p : PreviousProof) : ProofRow :=
  { id := 1, proof_data := p.proof_data, timestamp := to_rfc3339 p.timestamp }

/-! ## Status service (src/api.rs) -/

/-- The JSON body of the `/health` endpoint (api.rs `HealthCheckResponse`). -/
structure HealthCheckResponse where
  current_height : Nat
  current_root : String
  timestamp : String
  status : String
  deriving Repr, DecidableEq

/-- Thirty minutes in nanoseconds (`chrono::Duration::minutes(30)`). -/
def thirty_minutes_nanos : Int := 30 * 60 * 1000000000

/-- The `get_health_check` handler of api.rs lines 38-79, as a function of
the database, a fault flag for the underlying SQLite read, and the
`Utc::now()` reading in epoch nanoseconds. Returns the HTTP status code and
the JSON body (none on the bare 500 response): a successful read of a
stored snapshot is classified healthy exactly when its timestamp is after
now minus thirty minutes and answered with 200; an empty store is answered
with 404 and a "no_data" body; a read error is answered with a bare 500. -/
def get_health_check (db : DbState) (read_fault : Bool) (now : Int) :
    Nat × Option HealthCheckResponse :=
  let read : Except String (Option HealthCheckData) :=
    if read_fault then Except.error "storage" else get_latest_health_check db
  match read with
  | Except.ok (some health_data) =>
    let threshold := now - thirty_minutes_nanos
    let status := if threshold < health_data.timestamp then "healthy" else "unhealthy"
    (200, some { current_height := health_data.current_height,
                 current_root := hex_encode health_data.current_root,
                 timestamp := to_rfc3339 health_data.timestamp,
                 status := status })
  | Except.ok none =>
    (404, some { current_height := 0, current_root := "",
                 timestamp := to_rfc3339 now, status := "no_data" })
  | Except.error _ => (500, none)

/-! ## Shared lemmas -/

/-- Reading the fingerprint table right after a write returns the written
record, provided its timestamp text parses back. -/
lemma get_prev_after_update (db : DbState) (p : PreviousProof) (t : Int)
    (h : parse_rfc3339 (to_rfc3339 p.timestamp) = some t) :
    get_previous_proof (update_previous_proof db p) =
      Except.ok (some { proof_data := p.proof_data, timestamp := t }) := by
  simp [get_previous_proof, update_previous_proof, latest_by_id, next_row_id, h]

/-- Reading the snapshot table right after a write returns the written
record, provided its timestamp text parses back. -/
lemma get_health_after_update (db : DbState) (d : HealthCheckData) (t : Int)
    (h : parse_rfc3339 (to_rfc3339 d.timestamp) = some t) :
    get_latest_health_check (update_health_check db d) =
      Except.ok (some { current_height := d.current_height,
                        current_root := d.current_root, timestamp := t }) := by
  simp [get_latest_health_check, update_health_check, latest_by_id, next_row_id, h]

/-- The engine's fingerprint read after a fingerprint write yields the
written text, provided its timestamp text parses back. -/
lemma previous_proof_of_update (db : DbState) (p : PreviousProof) (t : Int)
    (h : parse_rfc3339 (to_rfc3339 p.timestamp) = some t) :
    previous_proof_of (update_previous_proof db p) false = some p.proof_data := by
  simp [previous_proof_of, get_prev_after_update db p t h]

/-- A health-check iteration whose fetched proof matches the stored
fingerprint leaves the store unchanged and performs exactly the one
internal 120-second sleep before continuing. -/
lemma cycle_unchanged_noop (db : DbState) (inp : HealthCycleInput) (proof : RawProof)
    (hf : inp.fetch = some proof)
    (hprev : previous_proof_of db inp.get_prev_fault = some (hex_encode proof.bytes)) :
    health_check_cycle db inp = (db, CycleOutcome.completed [120]) := by
  simp [health_check_cycle, hf, hprev]

/-- A health-check iteration on a changed proof that decodes, with no write
faults, writes the snapshot and then the fingerprint. -/
lemma cycle_changed_writes (db : DbState) (inp : HealthCycleInput) (proof : RawProof)
    (hr : Nat × List Nat)
    (hf : inp.fetch = some proof)
    (hprev : previous_proof_of db inp.get_prev_fault ≠ some (hex_encode proof.bytes))
    (hdec : decode_public_outputs LIGHT_CLIENT_MODE proof.public_values = some hr)
    (hsf : inp.snapshot_write_fault = false)
    (hff : inp.fingerprint_write_fault = false) :
    health_check_cycle db inp =
      (update_previous_proof
        (update_health_check db
          { current_height := hr.1, current_root := hr.2, timestamp := inp.now1 })
        { proof_data := hex_encode proof.bytes, timestamp := inp.now2 },
       CycleOutcome.completed [120]) := by
  simp [health_check_cycle, hf, hprev, hdec, hsf, hff]

/-- A changed-proof iteration whose snapshot write fails but whose
fingerprint write succeeds ends with only the fingerprint written. -/
lemma cycle_changed_snapshot_fault (db : DbState) (inp : HealthCycleInput) (proof : RawProof)
    (hr : Nat × List Nat)
    (hf : inp.fetch = some proof)
    (hprev : previous_proof_of db inp.get_prev_fault ≠ some (hex_encode proof.bytes))
    (hdec : decode_public_outputs LIGHT_CLIENT_MODE proof.public_values = some hr)
    (hsf : inp.snapshot_write_fault = true)
    (hff : inp.fingerprint_write_fault = false) :
    health_check_cycle db inp =
      (update_previous_proof db
        { proof_data := hex_encode proof.bytes, timestamp := inp.now2 },
       CycleOutcome.completed [120]) := by
  simp [health_check_cycle, hf, hprev, hdec, hsf, hff]

/-- The comparison sends whenever the in-memory previous proof is absent or
different. -/
lemma relay_should_send_of_ne (prev : Option String) (cur : String)
    (h : prev ≠ some cur) : relay_should_send prev cur = true := by
  cases prev with
  | none => rfl
  | some p =>
    have : p ≠ cur := fun he => h (by rw [he])
    simp [relay_should_send, this]

/-- Shape of the store under any operation sequence: each table is the
(at most one-element) list encoding the most recent surviving write. -/
lemma apply_ops_shape (ops : List DbOp) :
    ∀ (db : DbState) (acc1 : Option HealthCheckData) (acc2 : Option PreviousProof),
    db.health_check = (acc1.map health_row_of).toList →
    db.previous_proof = (acc2.map proof_row_of).toList →
    (apply_ops db ops).health_check =
      ((ops.foldl health_write_step acc1).map health_row_of).toList ∧
    (apply_ops db ops).previous_proof =
      ((ops.foldl prev_write_step acc2).map proof_row_of).toList := by
  induction ops with
  | nil => intro db acc1 acc2 h1 h2; exact ⟨h1, h2⟩
  | cons op rest ih =>
    intro db acc1 acc2 h1 h2
    cases op with
    | update_health d =>
      refine ih (apply_op db (DbOp.update_health d)) (some d) acc2 ?_ ?_
      · simp [apply_op, update_health_check, next_row_id, health_row_of]
      · simpa [apply_op, update_health_check] using h2
    | update_prev p =>
      refine ih (apply_op db (DbOp.update_prev p)) acc1 (some p) ?_ ?_
      · simpa [apply_op, update_previous_proof] using h1
      · simp [apply_op, update_previous_proof, next_row_id, proof_row_of]
    | clear_all =>
      refine ih (apply_op db DbOp.clear_all) none none ?_ ?_
      · simp [apply_op, clear_all_tables]
      · simp [apply_op, clear_all_tables]

/-! ## Claim theorems -/

/-- Claim C4: after every sequence of store operations starting from the
fresh store, each of the two tables holds at most one row; every put is a
full-table delete-then-insert executed under the store's one mutex (hence
one atomic unit with respect to readers, each operation being a single step
of this model), so the newest-row read returns either no row or exactly the
most recently written row, never a stale-plus-new mix. -/
theorem c4_store_single_row_atomic (ops : List DbOp) :
    (apply_ops emptyDb ops).health_check.length ≤ 1 ∧
    (apply_ops emptyDb ops).previous_proof.length ≤ 1 ∧
    latest_by_id (fun r => r.id) (apply_ops emptyDb ops).health_check =
      (last_health_write ops).map health_row_of ∧
    latest_by_id (fun r => r.id) (apply_ops emptyDb ops).previous_proof =
      (last_prev_write ops).map proof_row_of := by
  obtain ⟨h1, h2⟩ := apply_ops_shape ops emptyDb none none rfl rfl
  rw [h1, h2, last_health_write, last_prev_write]
  refine ⟨?_, ?_, ?_, ?_⟩
  · cases ops.foldl health_write_step none <;> simp
  · cases ops.foldl prev_write_step none <;> simp
  · cases ops.foldl health_write_step none <;> simp [latest_by_id]
  · cases ops.foldl prev_write_step none <;> simp [latest_by_id]

/-- Claim C10: for every snapshot record whose timestamp survives RFC 3339
serialization, writing it with `update_health_check` and then reading with
`get_latest_health_check` returns the same height, root bytes and
timestamp (put/get round-trip on the snapshot table). -/
theorem c10_snapshot_roundtrip (db : DbState) (d : HealthCheckData)
    (h : parse_rfc3339 (to_rfc3339 d.timestamp) = some d.timestamp) :
    get_latest_health_check (update_health_check db d) = Except.ok (some d) := by
  rw [get_health_after_update db d d.timestamp h]

/-- Witness for C10 at a concrete record with nanosecond-precision
timestamp. -/
theorem c10_snapshot_roundtrip_witness :
    get_latest_health_check (update_health_check emptyDb
      { current_height := 12345, current_root := [1, 2, 3, 4, 5],
        timestamp := 1760200000123456789 }) =
      Except.ok (some ({ current_height := 12345, current_root := [1, 2, 3, 4, 5],
                         timestamp := 1760200000123456789 } : HealthCheckData)) :=
  c10_snapshot_roundtrip emptyDb
    { current_height := 12345, current_root := [1, 2, 3, 4, 5],
      timestamp := 1760200000123456789 } (by decide)

/-- Claim C6: for every stored snapshot (a successful read returning it),
`GET /health` answers HTTP 200, with status "healthy" exactly when the
snapshot's timestamp is within the last thirty minutes of the current
wall-clock time (its age is below thirty minutes), and "unhealthy"
otherwise. -/
theorem c6_health_freshness (db : DbState) (now : Int) (d : HealthCheckData)
    (hd : get_latest_health_check db = Except.ok (some d)) :
    (get_health_check db false now).1 = 200 ∧
    ((get_health_check db false now).2.map (fun r => r.status) = some "healthy" ↔
      now - d.timestamp < thirty_minutes_nanos) ∧
    ((get_health_check db false now).2.map (fun r => r.status) = some "unhealthy" ↔
      ¬ now - d.timestamp < thirty_minutes_nanos) := by
  have hcode : (now - thirty_minutes_nanos < d.timestamp) ↔
      now - d.timestamp < thirty_minutes_nanos := by omega
  by_cases hfresh : now - thirty_minutes_nanos < d.timestamp
  · simp [get_health_check, hd, hfresh, hcode.mp hfresh]
  · have : ¬ now - d.timestamp < thirty_minutes_nanos := fun hc => hfresh (hcode.mpr hc)
    simp [get_health_check, hd, hfresh, this]

/-- Witness for C6: a snapshot one minute old is reported 200/healthy, one
thirty-one minutes old is reported 200/unhealthy. -/
theorem c6_health_freshness_witness :
    (get_health_check (update_health_check emptyDb
      { current_height := 5, current_root := [1, 2], timestamp := 0 })
      false 60000000000).1 = 200 ∧
    (get_health_check (update_health_check emptyDb
      { current_height := 5, current_root := [1, 2], timestamp := 0 })
      false 60000000000).2.map (fun r => r.status) = some "healthy" ∧
    (get_health_check (update_health_check emptyDb
      { current_height := 5, current_root := [1, 2], timestamp := 0 })
      false 1860000000000).2.map (fun r => r.status) = some "unhealthy" := by
  have h1 := c6_health_freshness (update_health_check emptyDb
    { current_height := 5, current_root := [1, 2], timestamp := 0 }) 60000000000
    { current_height := 5, current_root := [1, 2], timestamp := 0 } rfl
  have h2 := c6_health_freshness (update_health_check emptyDb
    { current_height := 5, current_root := [1, 2], timestamp := 0 }) 1860000000000
    { current_height := 5, current_root := [1, 2], timestamp := 0 } rfl
  exact ⟨h1.1, h1.2.1.mpr (by decide), h2.2.2.mpr (by decide)⟩

/-- Claim C7: `GET /health` answers HTTP 500 exactly when the live storage
read fails (an injected storage fault or an unreadable stored row); a store
holding no snapshot row is answered with HTTP 404, status "no_data" and an
empty snapshot body, never as an error. -/
theorem c7_error_reporting (db : DbState) (fault : Bool) (now : Int) :
    ((get_health_check db fault now).1 = 500 ↔
      (fault = true ∨ ∃ e, get_latest_health_check db = Except.error e)) ∧
    (fault = false → get_latest_health_check db = Except.ok none →
      get_health_check db fault now =
        (404, some { current_height := 0, current_root := "",
                     timestamp := to_rfc3339 now, status := "no_data" })) := by
  cases fault with
  | true => simp [get_health_check]
  | false =>
    cases hread : get_latest_health_check db with
    | ok o =>
      cases o with
      | none => simp [get_health_check, hread]
      | some d => simp [get_health_check, hread]
    | error e => simp [get_health_check, hread]

/-- Witness for C7: the empty store is answered 404 with a "no_data" body. -/
theorem c7_error_reporting_witness :
    get_health_check emptyDb false 0 =
      (404, some { current_height := 0, current_root := "",
                   timestamp := to_rfc3339 0, status := "no_data" }) :=
  (c7_error_reporting emptyDb false 0).2 rfl rfl

/-- Claim C1 counterexample: a fetched proof with empty (hence malformed)
public-output bytes, differing from the (absent) stored fingerprint, makes
the iteration end in a panic — the decode `unwrap` of main.rs line 163 —
instead of proceeding to the sleep step as the claim states. The store is
indeed left unchanged, but the poller's loop terminates. -/
theorem c1_decode_counterexample :
    health_check_cycle emptyDb
      { fetch := some { bytes := [0], public_values := [] },
        get_prev_fault := false, snapshot_write_fault := false,
        fingerprint_write_fault := false, now1 := 0, now2 := 0 } =
      (emptyDb, CycleOutcome.panicked) ∧
    proceeds_to_sleep CycleOutcome.panicked = false :=
  ⟨rfl, rfl⟩

/-- Claim C1 (amended): for every fetched proof that differs from the stored
fingerprint and whose public-output bytes are malformed for the configured
schema mode, the decode panics (the `unwrap`), ending the health-check
task's loop rather than proceeding to the sleep step; no stored state is
updated before the panic. Only that task dies: `tokio::join!` at main.rs
line 232 keeps waiting on the never-completing API task, so the process
keeps running and `/health` keeps serving the last stored snapshot. -/
theorem c1_decode_panics (db : DbState) (inp : HealthCycleInput) (proof : RawProof)
    (hf : inp.fetch = some proof)
    (hprev : previous_proof_of db inp.get_prev_fault ≠ some (hex_encode proof.bytes))
    (hdec : decode_public_outputs LIGHT_CLIENT_MODE proof.public_values = none) :
    health_check_cycle db inp = (db, CycleOutcome.panicked) := by
  simp [health_check_cycle, hf, hprev, hdec]

/-- Witness for the amended C1 at a truncated one-byte public output. -/
theorem c1_decode_panics_witness :
    health_check_cycle emptyDb
      { fetch := some { bytes := [1], public_values := [7] },
        get_prev_fault := false, snapshot_write_fault := false,
        fingerprint_write_fault := false, now1 := 5, now2 := 5 } =
      (emptyDb, CycleOutcome.panicked) :=
  c1_decode_panics emptyDb
    { fetch := some { bytes := [1], public_values := [7] },
      get_prev_fault := false, snapshot_write_fault := false,
      fingerprint_write_fault := false, now1 := 5, now2 := 5 }
    { bytes := [1], public_values := [7] } rfl (by decide) rfl

/-- Claim C2 counterexample: `send` never checks `response.status()`, so a
registry reply of HTTP 500 (not a successful response) still returns Ok and
the new fingerprint IS persisted, in memory and in the store — that payload
is never re-sent. This refutes "persists the new fingerprint only when the
registry POST yields a successful response". -/
theorem c2_status_ignored_counterexample :
    status_is_success 500 = false ∧
    (relay_cycle { previous_proof := none, db := emptyDb }
      { payload := some { proof := "ab", public_values := "cd", vk := "vk" },
        registry := RegistryOutcome.response 500 true,
        db_write_fault := false, now := 0 }).1.previous_proof = some "ab" ∧
    (relay_cycle { previous_proof := none, db := emptyDb }
      { payload := some { proof := "ab", public_values := "cd", vk := "vk" },
        registry := RegistryOutcome.response 500 true,
        db_write_fault := false, now := 0 }).1.db.previous_proof =
      [proof_row_of { proof_data := "ab", timestamp := 0 }] :=
  ⟨rfl, rfl, rfl⟩

/-- Claim C2 (amended): in relay mode, the engine persists the new
fingerprint exactly when `send` returns Ok — which happens whenever any
HTTP response is received and its body read, the registry's status code
being logged but never checked, so even an HTTP-error response persists
(and is invariant in the status code) — and only on a transport-level send
failure is the fingerprint (in memory and in the store) left unchanged, so
that the identical payload is re-sent on the next cycle. -/
theorem c2_relay_persist_iff_send_ok (st : RelayState) (inp : RelayCycleInput)
    (payload : RelayPayload)
    (hp : inp.payload = some payload)
    (hnew : st.previous_proof ≠ some payload.proof) :
    (send inp.registry = false →
      relay_cycle st inp = (st, [30]) ∧
      relay_should_send (relay_cycle st inp).1.previous_proof payload.proof = true) ∧
    (send inp.registry = true →
      (relay_cycle st inp).1.previous_proof = some payload.proof ∧
      (inp.db_write_fault = false →
        (relay_cycle st inp).1.db = update_previous_proof st.db
          { proof_data := payload.proof, timestamp := inp.now })) ∧
    (∀ status1 status2 body_read_ok,
      relay_cycle st { inp with registry := RegistryOutcome.response status1 body_read_ok } =
        relay_cycle st { inp with registry := RegistryOutcome.response status2 body_read_ok }) := by
  have hsend := relay_should_send_of_ne st.previous_proof payload.proof hnew
  refine ⟨?_, ?_, ?_⟩
  · intro hfail
    have hcycle : relay_cycle st inp = (st, [30]) := by
      simp [relay_cycle, hp, hsend, hfail]
    refine ⟨hcycle, ?_⟩
    rw [hcycle]
    exact hsend
  · intro hok
    constructor
    · simp [relay_cycle, hp, hsend, hok]
    · intro hnof
      simp [relay_cycle, hp, hsend, hok, hnof]
  · intro status1 status2 body_read_ok
    simp [relay_cycle, send]

/-- Witness for the amended C2: a transport-level send failure leaves the
relay state untouched, and a 404 response persists the same state a 200
response does. -/
theorem c2_relay_persist_iff_send_ok_witness :
    relay_cycle { previous_proof := none, db := emptyDb }
      { payload := some { proof := "ab", public_values := "cd", vk := "vk" },
        registry := RegistryOutcome.no_response, db_write_fault := false, now := 0 } =
      ({ previous_proof := none, db := emptyDb }, [30]) ∧
    relay_cycle { previous_proof := none, db := emptyDb }
      { payload := some { proof := "ab", public_values := "cd", vk := "vk" },
        registry := RegistryOutcome.response 404 true, db_write_fault := false, now := 0 } =
      relay_cycle { previous_proof := none, db := emptyDb }
        { payload := some { proof := "ab", public_values := "cd", vk := "vk" },
          registry := RegistryOutcome.response 200 true, db_write_fault := false, now := 0 } := by
  have h := c2_relay_persist_iff_send_ok { previous_proof := none, db := emptyDb }
    { payload := some { proof := "ab", public_values := "cd", vk := "vk" },
      registry := RegistryOutcome.no_response, db_write_fault := false, now := 0 }
    { proof := "ab", public_values := "cd", vk := "vk" } rfl (by decide)
  exact ⟨(h.1 rfl).1, h.2.2 404 200 true⟩

/-- Claim C3 counterexample: in relay mode, a cycle with a successful
new-proof detection (no previous proof, new payload) whose POST gets no
response at all (transport failure, so `send` errs) ends with the stored
fingerprint table still empty: the fingerprint was not replaced, so
replacement is not independent of whether forwarding succeeded. -/
theorem c3_relay_counterexample :
    relay_cycle { previous_proof := none, db := emptyDb }
      { payload := some { proof := "ff", public_values := "ee", vk := "vk" },
        registry := RegistryOutcome.no_response, db_write_fault := false, now := 0 } =
      ({ previous_proof := none, db := emptyDb }, [30]) ∧
    (relay_cycle { previous_proof := none, db := emptyDb }
      { payload := some { proof := "ff", public_values := "ee", vk := "vk" },
        registry := RegistryOutcome.no_response, db_write_fault := false,
        now := 0 }).1.db.previous_proof = [] :=
  ⟨rfl, rfl⟩

/-- Claim C3 (amended): the stored fingerprint is replaced on every
successful new-proof detection in health-check mode (where there is no
forwarding); in relay mode it is replaced exactly when `send` returned Ok —
which is whenever any HTTP response arrived and its body was read, the
status code being unchecked, so a registry error response also replaces
it — and left unchanged when `send` errs (transport failure). -/
theorem c3_fingerprint_replacement (db : DbState) (inp : HealthCycleInput)
    (proof : RawProof) (hr : Nat × List Nat)
    (st : RelayState) (rinp : RelayCycleInput) (payload : RelayPayload)
    (hf : inp.fetch = some proof)
    (hprev : previous_proof_of db inp.get_prev_fault ≠ some (hex_encode proof.bytes))
    (hdec : decode_public_outputs LIGHT_CLIENT_MODE proof.public_values = some hr)
    (hsf : inp.snapshot_write_fault = false)
    (hff : inp.fingerprint_write_fault = false)
    (hp : rinp.payload = some payload)
    (hnew : st.previous_proof ≠ some payload.proof) :
    (health_check_cycle db inp).1.previous_proof =
      [proof_row_of { proof_data := hex_encode proof.bytes, timestamp := inp.now2 }] ∧
    (send rinp.registry = false → (relay_cycle st rinp).1.db = st.db) ∧
    (send rinp.registry = true → rinp.db_write_fault = false →
      (relay_cycle st rinp).1.db = update_previous_proof st.db
        { proof_data := payload.proof, timestamp := rinp.now }) := by
  have hsend := relay_should_send_of_ne st.previous_proof payload.proof hnew
  refine ⟨?_, ?_, ?_⟩
  · rw [cycle_changed_writes db inp proof hr hf hprev hdec hsf hff]
    simp [update_previous_proof, next_row_id, proof_row_of]
  · intro hfail
    simp [relay_cycle, hp, hsend, hfail]
  · intro hok hnof
    simp [relay_cycle, hp, hsend, hok, hnof]

/-- Witness for the amended C3 at a concrete changed proof, a concrete
transport-failed relay send, and a concrete registry error response that
nevertheless replaces the fingerprint. -/
theorem c3_fingerprint_replacement_witness :
    (health_check_cycle emptyDb
      { fetch := some { bytes := [9], public_values := List.replicate 40 2 },
        get_prev_fault := false, snapshot_write_fault := false,
        fingerprint_write_fault := false, now1 := 0, now2 := 0 }).1.previous_proof =
      [proof_row_of { proof_data := hex_encode [9], timestamp := 0 }] ∧
    (relay_cycle { previous_proof := some "aa", db := emptyDb }
      { payload := some { proof := "bb", public_values := "cc", vk := "vk" },
        registry := RegistryOutcome.no_response, db_write_fault := false,
        now := 0 }).1.db = emptyDb ∧
    (relay_cycle { previous_proof := some "aa", db := emptyDb }
      { payload := some { proof := "bb", public_values := "cc", vk := "vk" },
        registry := RegistryOutcome.response 503 true, db_write_fault := false,
        now := 0 }).1.db =
      update_previous_proof emptyDb { proof_data := "bb", timestamp := 0 } := by
  have h := c3_fingerprint_replacement emptyDb
    { fetch := some { bytes := [9], public_values := List.replicate 40 2 },
      get_prev_fault := false, snapshot_write_fault := false,
      fingerprint_write_fault := false, now1 := 0, now2 := 0 }
    { bytes := [9], public_values := List.replicate 40 2 }
    (le_u64 (List.replicate 8 2), List.replicate 32 2)
    { previous_proof := some "aa", db := emptyDb }
    { payload := some { proof := "bb", public_values := "cc", vk := "vk" },
      registry := RegistryOutcome.no_response, db_write_fault := false, now := 0 }
    { proof := "bb", public_values := "cc", vk := "vk" }
    rfl (by decide) (by decide) rfl rfl rfl (by decide)
  have h2 := c3_fingerprint_replacement emptyDb
    { fetch := some { bytes := [9], public_values := List.replicate 40 2 },
      get_prev_fault := false, snapshot_write_fault := false,
      fingerprint_write_fault := false, now1 := 0, now2 := 0 }
    { bytes := [9], public_values := List.replicate 40 2 }
    (le_u64 (List.replicate 8 2), List.replicate 32 2)
    { previous_proof := some "aa", db := emptyDb }
    { payload := some { proof := "bb", public_values := "cc", vk := "vk" },
      registry := RegistryOutcome.response 503 true, db_write_fault := false, now := 0 }
    { proof := "bb", public_values := "cc", vk := "vk" }
    rfl (by decide) (by decide) rfl rfl rfl (by decide)
  exact ⟨h.1, h.2.1 rfl, h2.2.2 rfl rfl⟩

/-- Claim C9: in health-check mode, when a changed proof is processed and
the snapshot write fails with a storage error, the engine still writes the
new fingerprint: the cycle ends with the new fingerprint stored next to the
stale (or absent) snapshot, and a later cycle fetching the same proof takes
the unchanged path, so that proof is never re-processed. -/
theorem c9_snapshot_fault_fingerprint_written (db : DbState) (inp : HealthCycleInput)
    (proof : RawProof) (hr : Nat × List Nat) (t : Int) (inp2 : HealthCycleInput)
    (hf : inp.fetch = some proof)
    (hprev : previous_proof_of db inp.get_prev_fault ≠ some (hex_encode proof.bytes))
    (hdec : decode_public_outputs LIGHT_CLIENT_MODE proof.public_values = some hr)
    (hsf : inp.snapshot_write_fault = true)
    (hff : inp.fingerprint_write_fault = false)
    (ht : parse_rfc3339 (to_rfc3339 inp.now2) = some t)
    (hf2 : inp2.fetch = some proof)
    (hgp2 : inp2.get_prev_fault = false) :
    (health_check_cycle db inp).1.health_check = db.health_check ∧
    (health_check_cycle db inp).1.previous_proof =
      [proof_row_of { proof_data := hex_encode proof.bytes, timestamp := inp.now2 }] ∧
    health_check_cycle (health_check_cycle db inp).1 inp2 =
      ((health_check_cycle db inp).1, CycleOutcome.completed [120]) := by
  have hc := cycle_changed_snapshot_fault db inp proof hr hf hprev hdec hsf hff
  refine ⟨?_, ?_, ?_⟩
  · rw [hc]
    simp [update_previous_proof]
  · rw [hc]
    simp [update_previous_proof, next_row_id, proof_row_of]
  · refine cycle_unchanged_noop _ inp2 proof hf2 ?_
    rw [hc, hgp2]
    exact previous_proof_of_update db
      { proof_data := hex_encode proof.bytes, timestamp := inp.now2 } t ht

/-- Witness for C9 at a concrete changed proof with an injected snapshot
write fault. -/
theorem c9_snapshot_fault_fingerprint_written_witness :
    (health_check_cycle emptyDb
      { fetch := some { bytes := [4], public_values := List.replicate 40 3 },
        get_prev_fault := false, snapshot_write_fault := true,
        fingerprint_write_fault := false, now1 := 0, now2 := 0 }).1.health_check = [] ∧
    (health_check_cycle emptyDb
      { fetch := some { bytes := [4], public_values := List.replicate 40 3 },
        get_prev_fault := false, snapshot_write_fault := true,
        fingerprint_write_fault := false, now1 := 0, now2 := 0 }).1.previous_proof =
      [proof_row_of { proof_data := hex_encode [4], timestamp := 0 }] := by
  have h := c9_snapshot_fault_fingerprint_written emptyDb
    { fetch := some { bytes := [4], public_values := List.replicate 40 3 },
      get_prev_fault := false, snapshot_write_fault := true,
      fingerprint_write_fault := false, now1 := 0, now2 := 0 }
    { bytes := [4], public_values := List.replicate 40 3 }
    (le_u64 (List.replicate 8 3), List.replicate 32 3) 0
    { fetch := some { bytes := [4], public_values := List.replicate 40 3 },
      get_prev_fault := false, snapshot_write_fault := false,
      fingerprint_write_fault := false, now1 := 0, now2 := 0 }
    rfl (by decide) (by decide) rfl rfl rfl rfl rfl
  exact ⟨h.1, h.2.1⟩

/-- Claim C8 counterexample: an unchanged-proof iteration performs exactly
one 120-second sleep, not two — the internal sleep is followed by
`continue`, which skips the loop's trailing sleep (main.rs lines 150-151
versus 217), refuting the claimed double wait. -/
theorem c8_double_sleep_counterexample :
    health_check_cycle (update_previous_proof emptyDb { proof_data := "03", timestamp := 0 })
      { fetch := some { bytes := [3], public_values := List.replicate 40 1 },
        get_prev_fault := false, snapshot_write_fault := false,
        fingerprint_write_fault := false, now1 := 0, now2 := 0 } =
      (update_previous_proof emptyDb { proof_data := "03", timestamp := 0 },
       CycleOutcome.completed [120]) ∧
    CycleOutcome.completed [120] ≠ CycleOutcome.completed [120, 120] :=
  ⟨rfl, by decide⟩

/-- Claim C8 (amended): in health-check mode, a cycle whose fetched proof
equals the persisted fingerprint sleeps exactly once (the internal
120-second sleep), because `continue` skips the loop's trailing sleep; the
store is left unchanged. -/
theorem c8_unchanged_single_sleep (db : DbState) (inp : HealthCycleInput) (proof : RawProof)
    (hf : inp.fetch = some proof)
    (hprev : previous_proof_of db inp.get_prev_fault = some (hex_encode proof.bytes)) :
    health_check_cycle db inp = (db, CycleOutcome.completed [120]) :=
  cycle_unchanged_noop db inp proof hf hprev

/-- Witness for the amended C8 at a concrete stored fingerprint matching the
fetched proof. -/
theorem c8_unchanged_single_sleep_witness :
    health_check_cycle (update_previous_proof emptyDb { proof_data := "07", timestamp := 0 })
      { fetch := some { bytes := [7], public_values := [] },
        get_prev_fault := false, snapshot_write_fault := false,
        fingerprint_write_fault := false, now1 := 3, now2 := 3 } =
      (update_previous_proof emptyDb { proof_data := "07", timestamp := 0 },
       CycleOutcome.completed [120]) :=
  c8_unchanged_single_sleep
    (update_previous_proof emptyDb { proof_data := "07", timestamp := 0 })
    { fetch := some { bytes := [7], public_values := [] },
      get_prev_fault := false, snapshot_write_fault := false,
      fingerprint_write_fault := false, now1 := 3, now2 := 3 }
    { bytes := [7], public_values := [] } rfl (by decide)

/-- After a fault-free iteration on a decodable proof, the stored
fingerprint read by the engine is the hex encoding of that proof's bytes —
whether the iteration took the unchanged path (it already was) or the
changed path (it was just written). -/
lemma previous_proof_after_cycle (db : DbState) (inp : HealthCycleInput)
    (proof : RawProof) (hr : Nat × List Nat) (t2 : Int)
    (hf : inp.fetch = some proof)
    (h1 : inp.get_prev_fault = false)
    (h2 : inp.snapshot_write_fault = false)
    (h3 : inp.fingerprint_write_fault = false)
    (hdec : decode_public_outputs LIGHT_CLIENT_MODE proof.public_values = some hr)
    (hts : parse_rfc3339 (to_rfc3339 inp.now2) = some t2) :
    previous_proof_of (health_check_cycle db inp).1 false =
      some (hex_encode proof.bytes) := by
  by_cases hprev : previous_proof_of db inp.get_prev_fault = some (hex_encode proof.bytes)
  · rw [cycle_unchanged_noop db inp proof hf hprev]
    rw [h1] at hprev
    exact hprev
  · rw [cycle_changed_writes db inp proof hr hf hprev hdec h2 h3]
    exact previous_proof_of_update _
      { proof_data := hex_encode proof.bytes, timestamp := inp.now2 } t2 hts

/-- A fault-free iteration on a decodable proof never panics: it always
runs to the 120-second sleep. -/
lemma cycle_completes (db : DbState) (inp : HealthCycleInput)
    (proof : RawProof) (hr : Nat × List Nat)
    (hf : inp.fetch = some proof)
    (h2 : inp.snapshot_write_fault = false)
    (h3 : inp.fingerprint_write_fault = false)
    (hdec : decode_public_outputs LIGHT_CLIENT_MODE proof.public_values = some hr) :
    health_check_cycle db inp =
      ((health_check_cycle db inp).1, CycleOutcome.completed [120]) := by
  by_cases hprev : previous_proof_of db inp.get_prev_fault = some (hex_encode proof.bytes)
  · rw [cycle_unchanged_noop db inp proof hf hprev]
  · rw [cycle_changed_writes db inp proof hr hf hprev hdec h2 h3]

/-- Iterating the cycle on a store whose fingerprint already equals the
fetched proof performs no store write at all: any number of identical
iterations leaves the store fixed. -/
lemma run_cycles_fixed (inp : HealthCycleInput) (proof : RawProof)
    (hf : inp.fetch = some proof)
    (h1 : inp.get_prev_fault = false) :
    ∀ (n : Nat) (db : DbState),
    previous_proof_of db false = some (hex_encode proof.bytes) →
    run_health_cycles db (List.replicate n inp) = db := by
  intro n
  induction n with
  | zero => intro db _; rfl
  | succ m ih =>
    intro db hprev
    have hcyc : health_check_cycle db inp = (db, CycleOutcome.completed [120]) :=
      cycle_unchanged_noop db inp proof hf (by rw [h1]; exact hprev)
    simp only [List.replicate_succ, run_health_cycles, hcyc]
    exact ih db hprev

/-- Claim C5: for every sequence of consecutive fault-free cycles fetching
byte-identical decodable proofs (store reads succeeding: in particular the
fingerprint written on the first cycle reads back), the engine persists on
the first cycle only; every later identical cycle leaves the store
untouched (the run of n+1 cycles ends in the state the first cycle
produced, and a further identical cycle is a no-op returning the store
unchanged), the fingerprint thereafter being the fetched proof's hex. -/
theorem c5_one_write_per_change (db : DbState) (inp : HealthCycleInput)
    (proof : RawProof) (hr : Nat × List Nat) (t2 : Int) (n : Nat)
    (hf : inp.fetch = some proof)
    (h1 : inp.get_prev_fault = false)
    (h2 : inp.snapshot_write_fault = false)
    (h3 : inp.fingerprint_write_fault = false)
    (hdec : decode_public_outputs LIGHT_CLIENT_MODE proof.public_values = some hr)
    (hts : parse_rfc3339 (to_rfc3339 inp.now2) = some t2) :
    run_health_cycles db (List.replicate (n + 1) inp) = (health_check_cycle db inp).1 ∧
    health_check_cycle (health_check_cycle db inp).1 inp =
      ((health_check_cycle db inp).1, CycleOutcome.completed [120]) ∧
    previous_proof_of (health_check_cycle db inp).1 false =
      some (hex_encode proof.bytes) := by
  have hafter := previous_proof_after_cycle db inp proof hr t2 hf h1 h2 h3 hdec hts
  have hfirst := cycle_completes db inp proof hr hf h2 h3 hdec
  refine ⟨?_, ?_, hafter⟩
  · generalize hg : (health_check_cycle db inp).1 = db1 at hfirst hafter ⊢
    simp only [List.replicate_succ, run_health_cycles, hfirst]
    exact run_cycles_fixed inp proof hf h1 n db1 hafter
  · exact cycle_unchanged_noop _ inp proof hf (by rw [h1]; exact hafter)

/-- Witness for C5: two identical fetches from the empty store end in the
one-write state of the first cycle. -/
theorem c5_one_write_per_change_witness :
    run_health_cycles emptyDb (List.replicate 2
      { fetch := some { bytes := [8], public_values := List.replicate 40 4 },
        get_prev_fault := false, snapshot_write_fault := false,
        fingerprint_write_fault := false, now1 := 0, now2 := 0 }) =
      (health_check_cycle emptyDb
        { fetch := some { bytes := [8], public_values := List.replicate 40 4 },
          get_prev_fault := false, snapshot_write_fault := false,
          fingerprint_write_fault := false, now1 := 0, now2 := 0 }).1 ∧
    previous_proof_of (health_check_cycle emptyDb
      { fetch := some { bytes := [8], public_values := List.replicate 40 4 },
        get_prev_fault := false, snapshot_write_fault := false,
        fingerprint_write_fault := false, now1 := 0, now2 := 0 }).1 false =
      some (hex_encode [8]) := by
  have h := c5_one_write_per_change emptyDb
    { fetch := some { bytes := [8], public_values := List.replicate 40 4 },
      get_prev_fault := false, snapshot_write_fault := false,
      fingerprint_write_fault := false, now1 := 0, now2 := 0 }
    { bytes := [8], public_values := List.replicate 40 4 }
    (le_u64 (List.replicate 8 4), List.replicate 32 4) 0 1
    rfl rfl rfl rfl (by decide) (by decide)
  exact ⟨h.1, h.2.2⟩

end HeliosRelayer
